import Mathlib

/-!
Verification of the TheGiftOasis backend catalog, pricing, review and
order-numbering logic.

The JavaScript source is embedded shallowly:

* Mongo `Date` values are modelled as instants: integers counting
  milliseconds since the epoch; a nullable date field is `Option ℤ`.
  `moment(d).tz("Asia/Karachi")` changes only the display offset of a
  moment, never the underlying instant, and `isBetween`/`>=`/`<=`
  compare instants, so every date comparison in the source is an
  integer comparison here.
* JS numbers that only ever hold monetary values, percentages or
  ratings are modelled as `ℚ`.
* The truthiness tests `product.discountStart && product.discountEnd`
  are `Option` pattern matches (`null` is the only falsy value those
  fields can hold; a `Date` object is always truthy).
-/

/-- A product document as stored by `productSchema`
(src/models/Product.js, lines 3-33); only the fields the pricing,
rating and inventory logic reads are kept. -/
structure Product where
  price : ℚ
  discountPercentage : ℚ
  discountStart : Option ℤ
  discountEnd : Option ℤ
  averageRating : ℚ
  ratingCount : ℕ
  stock : ℤ
  lowStockThreshold : ℤ
deriving DecidableEq, Repr

/-- `productSchema.methods.getFinalPrice` (src/models/Product.js,
lines 36-48): `now` is passed explicitly in place of `new Date()`. -/
def Product.getFinalPrice (p : Product) (now : ℤ) : ℚ :=
  match p.discountStart, p.discountEnd with
  | some s, some e =>
      if 0 < p.discountPercentage ∧ s ≤ now ∧ now ≤ e then
        p.price - p.price * p.discountPercentage / 100
      else p.price
  | _, _ => p.price

/-- The record returned by the `getDiscountInfo` helper
(src/unnamed/part_005, lines 36-56); `discountExpiry` is the instant of
the ISO string the route sends, `none` standing for `null`. -/
structure DiscountInfo where
  discountActive : Bool
  discountExpiry : Option ℤ
  finalPrice : ℚ
  discountPercentage : ℚ
deriving DecidableEq, Repr

/-- `getDiscountInfo` (src/unnamed/part_005, lines 36-56; the copy in
src/unnamed/part_001, lines 8-26, is identical but for the
`discountPercentage` field of the result).  `isBetween(start, end,
null, "[]")` is the inclusive comparison `start ≤ now ≤ end`;
`product.discountPercentage || 0` is the identity on numeric
percentages. -/
def getDiscountInfo (p : Product) (now : ℤ) : DiscountInfo :=
  match p.discountStart, p.discountEnd with
  | some s, some e =>
      if 0 < p.discountPercentage then
        let active : Bool := decide (s ≤ now) && decide (now ≤ e)
        { discountActive := active
          discountExpiry := some e
          finalPrice := if active then p.getFinalPrice now else p.price
          discountPercentage := p.discountPercentage }
      else
        { discountActive := false
          discountExpiry := none
          finalPrice := p.price
          discountPercentage := p.discountPercentage }
  | _, _ =>
      { discountActive := false
        discountExpiry := none
        finalPrice := p.price
        discountPercentage := p.discountPercentage }

/-- The decorated product the catalog routes return
(src/unnamed/part_005, `decorateProduct`, lines 81-96). -/
structure DecoratedProduct where
  discountPercentage : ℚ
  discountStart : Option ℤ
  discountEnd : Option ℤ
  finalPrice : ℚ
  discountExpiry : Option ℤ
  isDiscountActive : Bool
  averageRating : ℚ
  ratingCount : ℕ
deriving DecidableEq, Repr

/-- `decorateProduct` (src/unnamed/part_005, lines 81-96). -/
def decorateProduct (p : Product) (now : ℤ) : DecoratedProduct :=
  let info := getDiscountInfo p now
  { discountPercentage := if info.discountActive then info.discountPercentage else 0
    discountStart := if info.discountActive then p.discountStart else none
    discountEnd := if info.discountActive then p.discountEnd else none
    finalPrice := info.finalPrice
    discountExpiry := info.discountExpiry
    isDiscountActive := info.discountActive
    averageRating := p.averageRating
    ratingCount := p.ratingCount }

/-- The inline discount check of the admin dashboard route
(src/unnamed/part_003, lines 25-32): plain `Date` comparisons on the
same instants. -/
def dashboardDiscountActive (p : Product) (now : ℤ) : Bool :=
  match p.discountStart, p.discountEnd with
  | some s, some e =>
      decide (0 < p.discountPercentage) && decide (s ≤ now) && decide (now ≤ e)
  | _, _ => false

/-- The `finalPrice` field built inline by the admin dashboard route
(src/unnamed/part_003, line 39). -/
def dashboardFinalPrice (p : Product) (now : ℤ) : ℚ :=
  if dashboardDiscountActive p now then p.getFinalPrice now else p.price

/-- The discount percentage stored by POST /add-product
(src/unnamed/part_005, line 183): `Number(discountPercentage || 0)`
applies no clamping to a numeric request value. -/
def addProductStoredPercentage (requested : ℚ) : ℚ := requested

/-- A review document (`reviewSchema`, src/unnamed/part_008): the store
under consideration is always the review set of one fixed product, so
only `_id` (as `id`), `user`, `rating`, `title` and `comment` are kept;
the unique index on (product, user) guarantees at most one review per
user in a well-formed store. -/
structure Review where
  id : ℕ
  user : ℕ
  rating : ℚ
  title : String
  comment : String
deriving DecidableEq, Repr

/-- `recalculateProductRating` (src/unnamed/part_005, lines 98-115): the
aggregate groups the product's reviews into `$avg` of `rating` and
`$sum: 1`; with no review the pipeline yields no group and
`stats?.averageRating || 0` / `stats?.ratingCount || 0` store `(0, 0)`
(`|| 0` is the identity on the numeric aggregate values otherwise).
Returns `(averageRating, ratingCount)` as written to the product. -/
def recalculateProductRating (ratings : List ℚ) : ℚ × ℕ :=
  if ratings.isEmpty then (0, 0)
  else (ratings.sum / ratings.length, ratings.length)

/-- `review.rating = …; review.title = …; review.comment = …; await
review.save()` on the document `findOne` returned: the first store
entry of the given user is replaced, everything else untouched. -/
def updateFirstByUser : List Review → ℕ → ℚ → String → String → List Review
  | [], _, _, _, _ => []
  | r :: rs, u, rating, title, comment =>
      if r.user = u then
        { r with rating := rating, title := title, comment := comment } :: rs
      else r :: updateFirstByUser rs u rating title comment

/-- The store mutation of POST /:id/reviews (src/unnamed/part_005,
lines 393-435): update the requesting user's existing review in place
when `findOne` finds one, else `Review.create` a new document (`newId`
standing for the fresh `_id`). -/
def reviewPost (store : List Review) (newId u : ℕ) (rating : ℚ)
    (title comment : String) : List Review :=
  if store.any (fun r => r.user == u) then
    updateFirstByUser store u rating title comment
  else store ++ [⟨newId, u, rating, title, comment⟩]

/-- POST /:id/reviews followed by `recalculateProductRating`: the new
store and the `(averageRating, ratingCount)` pair written back. -/
def reviewPostFlow (store : List Review) (newId u : ℕ) (rating : ℚ)
    (title comment : String) : List Review × (ℚ × ℕ) :=
  (reviewPost store newId u rating title comment,
    recalculateProductRating
      ((reviewPost store newId u rating title comment).map Review.rating))

/-- `review.deleteOne()` on the document found by `_id`: the first
store entry with the given id is removed. -/
def deleteFirstById : List Review → ℕ → List Review
  | [], _ => []
  | r :: rs, rid => if r.id = rid then rs else r :: deleteFirstById rs rid

/-- The authorized path of DELETE /:id/reviews/:reviewId
(src/unnamed/part_005, lines 437-460): delete the review, then
recalculate (the 404 and 403 paths change nothing). -/
def reviewDeleteFlow (store : List Review) (rid : ℕ) : List Review × (ℚ × ℕ) :=
  (deleteFirstById store rid,
    recalculateProductRating ((deleteFirstById store rid).map Review.rating))

/-- The three inventory states of `productSchema`
(src/models/Product.js, line 29). -/
inductive StockStatus where
  | in_stock
  | low_stock
  | out_of_stock
deriving DecidableEq, Repr

/-- The `pre("save")` hook on products (src/models/Product.js,
lines 51-60): derive `stockStatus` from `stock` and
`lowStockThreshold`. -/
def updateStockStatus (stock threshold : ℤ) : StockStatus :=
  if stock ≤ 0 then .out_of_stock
  else if stock ≤ threshold then .low_stock
  else .in_stock

/-- JS `String(n)` on a non-negative integer: the base-10 numeral — the
digits of `Nat.digits` (little-endian) rendered most-significant
first, `"0"` for zero. -/
def natDecimal (n : ℕ) : String :=
  if n = 0 then "0" else ⟨((Nat.digits 10 n).map Nat.digitChar).reverse⟩

/-- JS `String.prototype.padStart(len, c)`: left-pad to `len` without
truncating. -/
def padStart (s : String) (len : ℕ) (c : Char) : String :=
  ⟨List.replicate (len - s.data.length) c ++ s.data⟩

/-- The order number built on the normal path of `orderSchema.pre("save")`
(src/models/Product.js, lines 112-125):
`ORD-${year}${month}${day}-${sequence}` with `year = getFullYear()`,
`month = getMonth() + 1` and `day = getDate()` zero-padded to two
digits, and `sequence = String(count + 1).padStart(6, "0")` where
`count` is the number of existing orders. -/
def genOrderNumber (year month day count : ℕ) : String :=
  "ORD-" ++ natDecimal year ++ padStart (natDecimal month) 2 '0' ++
    padStart (natDecimal day) 2 '0' ++ "-" ++ padStart (natDecimal (count + 1)) 6 '0'

/-- The error-fallback path of the same hook (lines 126-132):
`ORD-${Date.now()}`. -/
def fallbackOrderNumber (timestampMs : ℕ) : String := "ORD-" ++ natDecimal timestampMs

/-- The anchored regular expression `ORD-\d{8}-\d{6}` as an executable
matcher. -/
def matchesOrderFormat (s : String) : Bool :=
  match s.data with
  | c1 :: c2 :: c3 :: c4 :: rest =>
      c1 == 'O' && c2 == 'R' && c3 == 'D' && c4 == '-' &&
      (rest.take 8).length == 8 && (rest.take 8).all Char.isDigit &&
      (match rest.drop 8 with
       | c5 :: seq => c5 == '-' && seq.length == 6 && seq.all Char.isDigit
       | [] => false)
  | _ => false

/-- The outcome of POST /create (src/unnamed/part_002): a persisted
order, the HTTP 500 "Order number conflict. Please try again."
response, or the generic HTTP 500. -/
inductive CreateOutcome where
  | saved (orderNumber : String)
  | conflictResponse
  | genericError
deriving DecidableEq, Repr

/-- The single save attempt of a new order: the unique index on
`orderNumber` (src/models/Product.js, lines 72-76) rejects a duplicate
with Mongo error code 11000. -/
def saveOrder (existing : List String) (n : String) : Except ℕ String :=
  if n ∈ existing then .error 11000 else .ok n

/-- POST /create with its catch handler (src/unnamed/part_002, lines
10-158): one `order.save()`; the catch maps `err.code === 11000` to the
conflict response and anything else to the generic error — no retry of
the save appears anywhere on the path. -/
def createOrderRoute (existing : List String) (year month day count : ℕ) : CreateOutcome :=
  match saveOrder existing (genOrderNumber year month day count) with
  | .ok n => .saved n
  | .error code => if code = 11000 then .conflictResponse else .genericError

/-- A concrete discounted product used to instantiate the pricing
results: price 100, 20% off over the window [0, 100]. -/
def discountedSample : Product :=
  { price := 100, discountPercentage := 20, discountStart := some 0,
    discountEnd := some 100, averageRating := 0, ratingCount := 0, stock := 0,
    lowStockThreshold := 5 }

/-- C1: `isDiscountActive` on a decorated product is true exactly when
the percentage is positive, both bounds are non-null, and `now` lies in
the closed interval `[discountStart, discountEnd]`. -/
theorem isDiscountActive_iff_window (p : Product) (now : ℤ) :
    (decorateProduct p now).isDiscountActive = true ↔
      0 < p.discountPercentage ∧
        (∃ s, p.discountStart = some s ∧ s ≤ now) ∧
        (∃ e, p.discountEnd = some e ∧ now ≤ e) := by
  unfold decorateProduct getDiscountInfo
  rcases hs : p.discountStart with _ | s <;> rcases he : p.discountEnd with _ | e <;>
    simp only [hs, he] <;> try simp
  by_cases hpc : 0 < p.discountPercentage <;>
    simp [hpc, and_assoc]

/-- C10: the admin dashboard's inline discount check and final price
(src/unnamed/part_003) agree with the `getDiscountInfo` helper
(src/unnamed/part_005) on every product at every fixed instant. -/
theorem dashboard_pricing_matches_helper (p : Product) (now : ℤ) :
    dashboardDiscountActive p now = (getDiscountInfo p now).discountActive ∧
      dashboardFinalPrice p now = (getDiscountInfo p now).finalPrice := by
  have hact : dashboardDiscountActive p now = (getDiscountInfo p now).discountActive := by
    unfold dashboardDiscountActive getDiscountInfo
    rcases hs : p.discountStart with _ | s <;> rcases he : p.discountEnd with _ | e <;>
      simp only [hs, he] <;> try simp
    by_cases hpc : 0 < p.discountPercentage <;> simp [hpc]
  refine ⟨hact, ?_⟩
  unfold dashboardFinalPrice
  rw [hact]
  unfold getDiscountInfo
  rcases hs : p.discountStart with _ | s <;> rcases he : p.discountEnd with _ | e <;>
    simp only [hs, he] <;> try simp
  by_cases hpc : 0 < p.discountPercentage <;> simp [hpc]

/-- Helper: the discount can only be reported active when the stored
percentage is positive. -/
theorem discountActive_pos (p : Product) (now : ℤ)
    (h : (getDiscountInfo p now).discountActive = true) : 0 < p.discountPercentage := by
  unfold getDiscountInfo at h
  rcases hs : p.discountStart with _ | s <;> rcases he : p.discountEnd with _ | e <;>
      simp only [hs, he] at h <;> try simp at h
  by_cases hpc : 0 < p.discountPercentage
  · exact hpc
  · simp [hpc] at h

/-- Helper: the final price reported by `getDiscountInfo` is the
discounted price exactly when the discount is active, else the base
price. -/
theorem getDiscountInfo_finalPrice_eq (p : Product) (now : ℤ) :
    (getDiscountInfo p now).finalPrice =
      if (getDiscountInfo p now).discountActive then
        p.price - p.price * p.discountPercentage / 100
      else p.price := by
  unfold getDiscountInfo Product.getFinalPrice
  rcases hs : p.discountStart with _ | s <;> rcases he : p.discountEnd with _ | e <;>
    simp only [hs, he] <;> try simp
  by_cases hpc : 0 < p.discountPercentage <;>
    by_cases h1 : s ≤ now <;> by_cases h2 : now ≤ e <;>
      simp [hpc, h1, h2]

/-- C2 counterexample: a zero-priced product inside an active window has
`finalPrice = price` even though the discount is active, refuting
"equality iff the discount is inactive". -/
theorem finalPrice_eq_price_despite_active :
    (decorateProduct
      { price := 0, discountPercentage := 50, discountStart := some 0,
        discountEnd := some 100, averageRating := 0, ratingCount := 0, stock := 0,
        lowStockThreshold := 5 } 50).isDiscountActive = true ∧
      (decorateProduct
        { price := 0, discountPercentage := 50, discountStart := some 0,
          discountEnd := some 100, averageRating := 0, ratingCount := 0, stock := 0,
          lowStockThreshold := 5 } 50).finalPrice = 0 := by
  constructor
  · rfl
  · norm_num [decorateProduct, getDiscountInfo, Product.getFinalPrice]

/-- C2 amended: for a non-negatively priced product, `finalPrice` is
`price × (1 − discountPercentage/100)` when the discount is active and
`price` otherwise; it never exceeds `price`, and equals `price` exactly
when the discount is inactive or the price is zero. -/
theorem finalPrice_formula_and_le (p : Product) (now : ℤ) (hp : 0 ≤ p.price) :
    (getDiscountInfo p now).finalPrice =
        (if (getDiscountInfo p now).discountActive then
          p.price * (1 - p.discountPercentage / 100) else p.price) ∧
      (getDiscountInfo p now).finalPrice ≤ p.price ∧
      ((getDiscountInfo p now).finalPrice = p.price ↔
        ((getDiscountInfo p now).discountActive = false ∨ p.price = 0)) := by
  have hform := getDiscountInfo_finalPrice_eq p now
  by_cases hact : (getDiscountInfo p now).discountActive = true
  · have hpc := discountActive_pos p now hact
    rw [hact] at hform
    simp only [hact, if_true] at *
    have hd : 0 ≤ p.price * p.discountPercentage / 100 := by positivity
    refine ⟨by rw [hform]; ring, by rw [hform]; linarith, ?_⟩
    rw [hform]
    constructor
    · intro h
      have hz : p.price * p.discountPercentage / 100 = 0 := by linarith
      have hz' : p.price * p.discountPercentage = 0 := by
        rcases div_eq_zero_iff.mp hz with h' | h'
        · exact h'
        · norm_num at h'
      rcases mul_eq_zero.mp hz' with h0 | h0
      · exact Or.inr h0
      · exact absurd h0 (ne_of_gt hpc)
    · rintro (hfalse | h0)
      · simp at hfalse
      · rw [h0]; ring
  · rw [Bool.not_eq_true] at hact
    rw [hact] at hform
    simp only [hact, Bool.false_eq_true, if_false] at *
    exact ⟨hform, le_of_eq hform, by simp [hform]⟩

/-- C3: a product written with percentage 150 — accepted unclamped by the
add-product route — is priced negative inside its discount window,
contradicting the spec's "must never be negative". -/
theorem finalPrice_negative_with_unclamped_percentage :
    (getDiscountInfo
      { price := 100, discountPercentage := addProductStoredPercentage 150,
        discountStart := some 0, discountEnd := some 100, averageRating := 0,
        ratingCount := 0, stock := 0, lowStockThreshold := 5 } 50).finalPrice < 0 := by
  norm_num [getDiscountInfo, Product.getFinalPrice, addProductStoredPercentage]

/-- C4 counterexample: with percentage 50 and window [0, 100], at
now = 200 the discount is inactive yet the decorated product still
exposes `discountExpiry = 100` instead of null. -/
theorem discountExpiry_exposed_while_inactive :
    (decorateProduct
      { price := 100, discountPercentage := 50, discountStart := some 0,
        discountEnd := some 100, averageRating := 0, ratingCount := 0, stock := 0,
        lowStockThreshold := 5 } 200).isDiscountActive = false ∧
      (decorateProduct
        { price := 100, discountPercentage := 50, discountStart := some 0,
          discountEnd := some 100, averageRating := 0, ratingCount := 0, stock := 0,
          lowStockThreshold := 5 } 200).discountExpiry = some 100 := by
  constructor <;> rfl

/-- C4 amended: the decorated product exposes `discountExpiry` (as the
end bound) whenever the percentage is positive and both bounds are
non-null — regardless of whether `now` lies in the window — and null
otherwise. -/
theorem discountExpiry_eq_end_of_window (p : Product) (now : ℤ) :
    (decorateProduct p now).discountExpiry =
      match p.discountStart, p.discountEnd with
      | some _, some e => if 0 < p.discountPercentage then some e else none
      | _, _ => none := by
  unfold decorateProduct getDiscountInfo
  rcases hs : p.discountStart with _ | s <;> rcases he : p.discountEnd with _ | e <;>
    simp only [hs, he] <;> try simp
  by_cases hpc : 0 < p.discountPercentage <;> simp [hpc]

/-- Helper: the recalculated pair is the count of ratings, their mean
when some exist, and `(0, 0)` on an empty set. -/
theorem recalculateProductRating_spec (rs : List ℚ) :
    (recalculateProductRating rs).2 = rs.length ∧
      (rs ≠ [] → (recalculateProductRating rs).1 = rs.sum / rs.length) ∧
      (rs = [] → recalculateProductRating rs = (0, 0)) := by
  unfold recalculateProductRating
  rcases rs with _ | ⟨a, rs⟩ <;> simp

/-- Helper: the aggregate pair recomputed from any review store is the
mean and count of its ratings, `(0, 0)` for the empty store. -/
theorem recalculate_store_spec (s2 : List Review) (avg : ℚ) (cnt : ℕ)
    (hac : recalculateProductRating (s2.map Review.rating) = (avg, cnt)) :
    cnt = s2.length ∧
      (s2 ≠ [] → avg = (s2.map Review.rating).sum / s2.length) ∧
      (s2 = [] → avg = 0 ∧ cnt = 0) := by
  have hk := recalculateProductRating_spec (s2.map Review.rating)
  rw [hac] at hk
  refine ⟨?_, ?_, ?_⟩
  · simpa [List.length_map] using hk.1
  · intro hne
    have hm : s2.map Review.rating ≠ [] := by simpa using hne
    simpa [List.length_map] using hk.2.1 hm
  · intro he
    have h0 := hk.2.2 (by simp [he])
    exact ⟨by simpa using congrArg Prod.fst h0,
      by simpa using congrArg Prod.snd h0⟩

/-- C7: after a review create or update (POST) or a review delete, the
aggregates written to the product are exactly the arithmetic mean and
the count of the remaining ratings, and both reset to 0 when the last
review is gone. -/
theorem review_aggregates_mean_and_count (store : List Review)
    (newId u : ℕ) (rating : ℚ) (title comment : String) (rid : ℕ)
    (s2 : List Review) (avg : ℚ) (cnt : ℕ)
    (h : reviewPostFlow store newId u rating title comment = (s2, (avg, cnt)) ∨
      reviewDeleteFlow store rid = (s2, (avg, cnt))) :
    cnt = s2.length ∧
      (s2 ≠ [] → avg = (s2.map Review.rating).sum / s2.length) ∧
      (s2 = [] → avg = 0 ∧ cnt = 0) := by
  rcases h with h | h
  · unfold reviewPostFlow at h
    injection h with hs hac
    subst hs
    exact recalculate_store_spec _ avg cnt hac
  · unfold reviewDeleteFlow at h
    injection h with hs hac
    subst hs
    exact recalculate_store_spec _ avg cnt hac

/-- C7 witness: deleting the only review of a product resets the stored
aggregates to zero. -/
theorem review_aggregates_mean_and_count_witness :
    (reviewDeleteFlow [⟨1, 1, 5, "", ""⟩] 1 = (([] : List Review), ((0 : ℚ), (0 : ℕ)))) ∧
      ((0 : ℕ) = ([] : List Review).length ∧
        (([] : List Review) ≠ [] →
          (0 : ℚ) = (([] : List Review).map Review.rating).sum / ([] : List Review).length) ∧
        (([] : List Review) = [] → (0 : ℚ) = 0 ∧ (0 : ℕ) = 0)) :=
  ⟨rfl, review_aggregates_mean_and_count [⟨1, 1, 5, "", ""⟩] 0 1 5 "" "" 1 [] 0 0
    (Or.inr rfl)⟩

/-- Helper: updating a user's review touches only the first entry of
that user, leaving a prefix of other users' reviews intact. -/
theorem updateFirstByUser_append (pre post : List Review) (rv : Review)
    (rating : ℚ) (title comment : String)
    (hpre : ∀ x ∈ pre, x.user ≠ rv.user) :
    updateFirstByUser (pre ++ rv :: post) rv.user rating title comment =
      pre ++ { rv with rating := rating, title := title, comment := comment } :: post := by
  induction pre with
  | nil => simp [updateFirstByUser]
  | cons a as ih =>
      have ha : a.user ≠ rv.user := hpre a (List.mem_cons_self a as)
      have ih' := ih fun x hx => hpre x (List.mem_cons_of_mem a hx)
      simp [updateFirstByUser, ha, ih']

/-- C8: a second submission by a user who already reviewed the product
rewrites that review's rating, title and comment in place — same `_id`,
no new document — and the recomputed `ratingCount` equals the review
count before the submission. -/
theorem second_review_updates_in_place (pre post : List Review) (rv : Review)
    (newId : ℕ) (rating : ℚ) (title comment : String)
    (hpre : ∀ x ∈ pre, x.user ≠ rv.user) :
    (reviewPostFlow (pre ++ rv :: post) newId rv.user rating title comment).1 =
        pre ++ { rv with rating := rating, title := title, comment := comment } :: post ∧
      (reviewPostFlow (pre ++ rv :: post) newId rv.user rating title comment).2.2 =
        (pre ++ rv :: post).length := by
  have hany : (pre ++ rv :: post).any (fun r => r.user == rv.user) = true := by
    simp [List.any_append]
  have hupd := updateFirstByUser_append pre post rv rating title comment hpre
  have hstore : (reviewPostFlow (pre ++ rv :: post) newId rv.user rating title comment).1 =
      pre ++ { rv with rating := rating, title := title, comment := comment } :: post := by
    simp [reviewPostFlow, reviewPost, hany, hupd]
  refine ⟨hstore, ?_⟩
  have hcnt := (recalculateProductRating_spec
    (((reviewPostFlow (pre ++ rv :: post) newId rv.user rating title comment).1).map
      Review.rating)).1
  have : (reviewPostFlow (pre ++ rv :: post) newId rv.user rating title comment).2 =
      recalculateProductRating
        (((reviewPostFlow (pre ++ rv :: post) newId rv.user rating title comment).1).map
          Review.rating) := by
    simp [reviewPostFlow]
  rw [this, hcnt, hstore]
  simp

/-- C8 witness: resubmitting user 1's review of a one-review store
keeps the store at a single, rewritten document and the count at 1. -/
theorem second_review_updates_in_place_witness :
    (∀ x ∈ ([] : List Review), x.user ≠ (⟨7, 1, 2, "t", "c"⟩ : Review).user) ∧
      ((reviewPostFlow ([] ++ (⟨7, 1, 2, "t", "c"⟩ : Review) :: []) 9
            (⟨7, 1, 2, "t", "c"⟩ : Review).user 5 "new" "better").1 =
          [] ++ (⟨7, 1, 5, "new", "better"⟩ : Review) :: [] ∧
        (reviewPostFlow ([] ++ (⟨7, 1, 2, "t", "c"⟩ : Review) :: []) 9
            (⟨7, 1, 2, "t", "c"⟩ : Review).user 5 "new" "better").2.2 =
          ([] ++ (⟨7, 1, 2, "t", "c"⟩ : Review) :: []).length) :=
  ⟨by simp, second_review_updates_in_place [] [] ⟨7, 1, 2, "t", "c"⟩ 9 5 "new" "better"
    (by simp)⟩

/-- C9: on every save with a non-negative threshold, the derived status
is out_of_stock for stock ≤ 0, low_stock for 0 < stock ≤ threshold and
in_stock above the threshold; in particular (3, 5) is low, (0, 5) out
and (10, 5) in stock. -/
theorem stockStatus_partition (stock threshold : ℤ) (hth : 0 ≤ threshold) :
    (stock ≤ 0 → updateStockStatus stock threshold = .out_of_stock) ∧
      (0 < stock → stock ≤ threshold → updateStockStatus stock threshold = .low_stock) ∧
      (threshold < stock → updateStockStatus stock threshold = .in_stock) ∧
      updateStockStatus 3 5 = .low_stock ∧
      updateStockStatus 0 5 = .out_of_stock ∧
      updateStockStatus 10 5 = .in_stock := by
  refine ⟨?_, ?_, ?_, by decide, by decide, by decide⟩
  · intro h
    simp [updateStockStatus, h]
  · intro h1 h2
    unfold updateStockStatus
    rw [if_neg (by omega), if_pos h2]
  · intro h
    unfold updateStockStatus
    rw [if_neg (by omega), if_neg (by omega)]

/-- C9 witness: the spec's three sample points at threshold 5. -/
theorem stockStatus_partition_witness :
    (0 : ℤ) ≤ 5 ∧
      (((3 : ℤ) ≤ 0 → updateStockStatus 3 5 = .out_of_stock) ∧
        ((0 : ℤ) < 3 → (3 : ℤ) ≤ 5 → updateStockStatus 3 5 = .low_stock) ∧
        ((5 : ℤ) < 3 → updateStockStatus 3 5 = .in_stock) ∧
        updateStockStatus 3 5 = .low_stock ∧
        updateStockStatus 0 5 = .out_of_stock ∧
        updateStockStatus 10 5 = .in_stock) :=
  ⟨by decide, stockStatus_partition 3 5 (by decide)⟩

/-- Helper: decimal digit values render as digit characters. -/
theorem digitChar_isDigit {d : ℕ} (hd : d < 10) : (Nat.digitChar d).isDigit = true := by
  interval_cases d <;> decide

/-- Helper: every character of a rendered numeral is a digit. -/
theorem natDecimal_all_digits (n : ℕ) :
    (natDecimal n).data.all Char.isDigit = true := by
  unfold natDecimal
  by_cases h : n = 0
  · simp [h]
  · simp only [h, if_false]
    rw [List.all_eq_true]
    intro c hc
    simp only [List.mem_reverse, List.mem_map] at hc
    obtain ⟨d, hd, rfl⟩ := hc
    exact digitChar_isDigit (Nat.digits_lt_base (by norm_num) hd)

/-- Helper: a nonzero numeral has one character per digit. -/
theorem natDecimal_length (n : ℕ) (h : n ≠ 0) :
    (natDecimal n).data.length = (Nat.digits 10 n).length := by
  unfold natDecimal
  simp [h]

/-- Helper: a numeral below `10 ^ k` has at most `k` characters. -/
theorem natDecimal_length_le {n k : ℕ} (hn : n ≠ 0) (h : n < 10 ^ k) :
    (natDecimal n).data.length ≤ k := by
  rw [natDecimal_length n hn, Nat.digits_len 10 n (by norm_num) hn]
  have := Nat.log_lt_of_lt_pow hn h
  omega

/-- Helper: a four-digit year renders as four characters. -/
theorem natDecimal_year_length {year : ℕ} (h1 : 1000 ≤ year) (h2 : year ≤ 9999) :
    (natDecimal year).data.length = 4 := by
  have hy : year ≠ 0 := by omega
  rw [natDecimal_length year hy, Nat.digits_len 10 year (by norm_num) hy]
  have e3 : (10 : ℕ) ^ 3 = 1000 := by norm_num
  have e4 : (10 : ℕ) ^ (3 + 1) = 10000 := by norm_num
  rw [Nat.log_eq_of_pow_le_of_lt_pow (e3 ▸ h1) (e4 ▸ (by omega : year < 10000))]

/-- Helper: padding a short string reaches exactly the target length. -/
theorem padStart_length (s : String) (k : ℕ) (c : Char) (h : s.data.length ≤ k) :
    (padStart s k c).data.length = k := by
  show (List.replicate (k - s.data.length) c ++ s.data).length = k
  rw [List.length_append, List.length_replicate]
  omega

/-- Helper: zero-padding a digit string keeps every character a digit. -/
theorem padStart_all_digits (s : String) (k : ℕ)
    (h : s.data.all Char.isDigit = true) :
    (padStart s k '0').data.all Char.isDigit = true := by
  unfold padStart
  simp only [List.all_append, Bool.and_eq_true]
  constructor
  · rw [List.all_eq_true]
    intro c hc
    rw [List.eq_of_mem_replicate hc]
    decide
  · exact h

/-- Helper: the matcher accepts `ORD-` + 8 digits + `-` + 6 digits. -/
theorem matchesOrderFormat_build (ys zs : List Char)
    (h8 : ys.length = 8) (h6 : zs.length = 6)
    (hys : ys.all Char.isDigit = true) (hzs : zs.all Char.isDigit = true) :
    matchesOrderFormat ⟨'O' :: 'R' :: 'D' :: '-' :: (ys ++ '-' :: zs)⟩ = true := by
  unfold matchesOrderFormat
  have ht : (ys ++ '-' :: zs).take 8 = ys := by
    rw [← h8]; exact List.take_left ys _
  have hd : (ys ++ '-' :: zs).drop 8 = '-' :: zs := by
    rw [← h8]; exact List.drop_left ys _
  simp [ht, hd, h8, h6, hys, hzs]

/-- Helper: the normal generator path emits `ORD-\d{8}-\d{6}` for any
four-digit year, calendar month and day, and sequence below one
million. -/
theorem genOrderNumber_format {year month day count : ℕ}
    (hy1 : 1000 ≤ year) (hy2 : year ≤ 9999)
    (hm1 : 1 ≤ month) (hm2 : month ≤ 12)
    (hd1 : 1 ≤ day) (hd2 : day ≤ 31)
    (hc : count + 1 ≤ 999999) :
    matchesOrderFormat (genOrderNumber year month day count) = true := by
  have hOl : "ORD-".data = ['O', 'R', 'D', '-'] := rfl
  have hDash : "-".data = ['-'] := rfl
  set ym := (natDecimal year).data with hym
  set mm := (padStart (natDecimal month) 2 '0').data with hmm
  set dm := (padStart (natDecimal day) 2 '0').data with hdm
  set sq := (padStart (natDecimal (count + 1)) 6 '0').data with hsq
  have hdata : (genOrderNumber year month day count).data =
      'O' :: 'R' :: 'D' :: '-' :: ((ym ++ mm ++ dm) ++ '-' :: sq) := by
    simp [genOrderNumber, String.data_append, hOl, hDash, List.append_assoc]
  have hylen : ym.length = 4 := natDecimal_year_length hy1 hy2
  have hmlen : mm.length = 2 := padStart_length _ 2 '0'
    (natDecimal_length_le (by omega) (by omega : month < 10 ^ 2))
  have hdlen : dm.length = 2 := padStart_length _ 2 '0'
    (natDecimal_length_le (by omega) (by omega : day < 10 ^ 2))
  have hslen : sq.length = 6 := padStart_length _ 6 '0'
    (natDecimal_length_le (by omega) (by omega : count + 1 < 10 ^ 6))
  have hydig := natDecimal_all_digits year
  have hmdig := padStart_all_digits (natDecimal month) 2 (natDecimal_all_digits month)
  have hddig := padStart_all_digits (natDecimal day) 2 (natDecimal_all_digits day)
  have hsdig := padStart_all_digits (natDecimal (count + 1)) 6
    (natDecimal_all_digits (count + 1))
  have hlen8 : (ym ++ mm ++ dm).length = 8 := by
    simp [List.length_append, hylen, hmlen, hdlen]
  have hdig8 : (ym ++ mm ++ dm).all Char.isDigit = true := by
    simp only [List.all_append, Bool.and_eq_true]
    exact ⟨⟨hydig, hmdig⟩, hddig⟩
  have hstr : genOrderNumber year month day count =
      ⟨'O' :: 'R' :: 'D' :: '-' :: ((ym ++ mm ++ dm) ++ '-' :: sq)⟩ :=
    String.ext hdata
  rw [hstr]
  exact matchesOrderFormat_build _ _ hlen8 hslen hdig8 hsdig

/-- Helper: the fallback `ORD-${Date.now()}` never matches
`ORD-\d{8}-\d{6}` — after the prefix it is digits only, with no second
dash group. -/
theorem fallbackOrderNumber_not_format (ts : ℕ) :
    matchesOrderFormat (fallbackOrderNumber ts) = false := by
  have hOl : "ORD-".data = ['O', 'R', 'D', '-'] := rfl
  have hdata : (fallbackOrderNumber ts).data =
      'O' :: 'R' :: 'D' :: '-' :: (natDecimal ts).data := by
    simp [fallbackOrderNumber, String.data_append, hOl]
  have hstr : fallbackOrderNumber ts = ⟨'O' :: 'R' :: 'D' :: '-' :: (natDecimal ts).data⟩ :=
    String.ext hdata
  rw [hstr]
  unfold matchesOrderFormat
  rcases hdrop : (natDecimal ts).data.drop 8 with _ | ⟨c, seq⟩
  · simp [hdrop]
  · have hdigit : c.isDigit = true := by
      have hall := natDecimal_all_digits ts
      rw [List.all_eq_true] at hall
      exact hall c (List.mem_of_mem_drop (hdrop ▸ List.mem_cons_self c seq))
    have hne : (c == '-') = false := by
      rcases hb : (c == '-') with _ | _
      · rfl
      · rw [beq_iff_eq] at hb
        rw [hb] at hdigit
        exact absurd hdigit (by decide)
    simp [hdrop, hne]

/-- C5 counterexample: the error-fallback path at the concrete timestamp
1700000000000 produces an order number outside `ORD-\d{8}-\d{6}`. -/
theorem orderNumber_fallback_breaks_format :
    matchesOrderFormat (fallbackOrderNumber 1700000000000) = false :=
  fallbackOrderNumber_not_format 1700000000000

/-- C5 amended: order numbers from the normal generator path (four-digit
year, calendar month/day, `count + 1` at most 999999) match
`ORD-\d{8}-\d{6}`; the error-fallback path instead emits
`ORD-<millisecond timestamp>`, which never matches that format. -/
theorem orderNumber_format (year month day count ts : ℕ)
    (hy1 : 1000 ≤ year) (hy2 : year ≤ 9999)
    (hm1 : 1 ≤ month) (hm2 : month ≤ 12)
    (hd1 : 1 ≤ day) (hd2 : day ≤ 31)
    (hc : count + 1 ≤ 999999) :
    matchesOrderFormat (genOrderNumber year month day count) = true ∧
      matchesOrderFormat (fallbackOrderNumber ts) = false :=
  ⟨genOrderNumber_format hy1 hy2 hm1 hm2 hd1 hd2 hc, fallbackOrderNumber_not_format ts⟩

/-- C5 witness: the generator output for 2025-01-15 with five existing
orders is in format; the fallback for a 2025 timestamp is not. -/
theorem orderNumber_format_witness :
    ((1000 ≤ 2025 ∧ 2025 ≤ 9999) ∧ (1 ≤ 1 ∧ 1 ≤ 12) ∧ (1 ≤ 15 ∧ 15 ≤ 31) ∧
        5 + 1 ≤ 999999) ∧
      (matchesOrderFormat (genOrderNumber 2025 1 15 5) = true ∧
        matchesOrderFormat (fallbackOrderNumber 1737000000000) = false) :=
  ⟨by omega, orderNumber_format 2025 1 15 5 1737000000000 (by omega) (by omega)
    (by omega) (by omega) (by omega) (by omega) (by omega)⟩

/-- C6: when the generated number already exists — as after two
near-simultaneous creations read the same order count — the creation
path answers with the conflict error and persists nothing; it performs
no retry and no timestamp fallback, contradicting the claimed bounded
retry. -/
theorem duplicate_orderNumber_conflict_no_retry (year month day count : ℕ) :
    createOrderRoute [genOrderNumber year month day count] year month day count =
      CreateOutcome.conflictResponse := by
  unfold createOrderRoute saveOrder
  simp

/-- C2 witness: the sample product at now = 50 is actively discounted to
80 ≤ 100, and equality characterisation holds there. -/
theorem finalPrice_formula_and_le_witness :
    (0 : ℚ) ≤ discountedSample.price ∧
      ((getDiscountInfo discountedSample 50).finalPrice =
          (if (getDiscountInfo discountedSample 50).discountActive then
            discountedSample.price * (1 - discountedSample.discountPercentage / 100)
          else discountedSample.price) ∧
        (getDiscountInfo discountedSample 50).finalPrice ≤ discountedSample.price ∧
        ((getDiscountInfo discountedSample 50).finalPrice = discountedSample.price ↔
          ((getDiscountInfo discountedSample 50).discountActive = false ∨
            discountedSample.price = 0))) :=
  ⟨by norm_num [discountedSample], finalPrice_formula_and_le discountedSample 50
    (by norm_num [discountedSample])⟩
